import Mathlib

/-!
Verification development for the error-classification / retry engine
(`.github/actions/claude-code-runner/scripts/error_parser.py`) and the
feedback-pattern analyzer
(`.github/actions/claude-code-runner/scripts/feedback_optimizer.py`).

All definitions are shallow embeddings translated from the Python source.
Machine reals (`float`) are modelled as exact rationals, Python `datetime`
values as seconds (`Nat`), and fallible Python evaluation as `Except PyExc`.
-/

namespace MD5

/-- 32-bit truncation modulus. -/
def m32 : Nat := 4294967296

/-- Bitwise complement on 32-bit words represented as `Nat`. -/
def notc (x : Nat) : Nat := 4294967295 - x % m32

/-- 32-bit left rotation. -/
def rotl32 (x n : Nat) : Nat := (((x % m32) <<< n) ||| ((x % m32) >>> (32 - n))) % m32

/-- The 64 per-round sine-derived constants of RFC 1321. -/
def kTable : List Nat :=
  [0xd76aa478, 0xe8c7b756, 0x242070db, 0xc1bdceee,
   0xf57c0faf, 0x4787c62a, 0xa8304613, 0xfd469501,
   0x698098d8, 0x8b44f7af, 0xffff5bb1, 0x895cd7be,
   0x6b901122, 0xfd987193, 0xa679438e, 0x49b40821,
   0xf61e2562, 0xc040b340, 0x265e5a51, 0xe9b6c7aa,
   0xd62f105d, 0x02441453, 0xd8a1e681, 0xe7d3fbc8,
   0x21e1cde6, 0xc33707d6, 0xf4d50d87, 0x455a14ed,
   0xa9e3e905, 0xfcefa3f8, 0x676f02d9, 0x8d2a4c8a,
   0xfffa3942, 0x8771f681, 0x6d9d6122, 0xfde5380c,
   0xa4beea44, 0x4bdecfa9, 0xf6bb4b60, 0xbebfbc70,
   0x289b7ec6, 0xeaa127fa, 0xd4ef3085, 0x04881d05,
   0xd9d4d039, 0xe6db99e5, 0x1fa27cf8, 0xc4ac5665,
   0xf4292244, 0x432aff97, 0xab9423a7, 0xfc93a039,
   0x655b59c3, 0x8f0ccc92, 0xffeff47d, 0x85845dd1,
   0x6fa87e4f, 0xfe2ce6e0, 0xa3014314, 0x4e0811a1,
   0xf7537e82, 0xbd3af235, 0x2ad7d2bb, 0xeb86d391]

/-- The 64 per-round rotation amounts of RFC 1321. -/
def sTable : List Nat :=
  [7, 12, 17, 22, 7, 12, 17, 22, 7, 12, 17, 22, 7, 12, 17, 22,
   5, 9, 14, 20, 5, 9, 14, 20, 5, 9, 14, 20, 5, 9, 14, 20,
   4, 11, 16, 23, 4, 11, 16, 23, 4, 11, 16, 23, 4, 11, 16, 23,
   6, 10, 15, 21, 6, 10, 15, 21, 6, 10, 15, 21, 6, 10, 15, 21]

/-- Little-endian byte decomposition, `k` bytes. -/
def leBytes (k n : Nat) : List Nat := (List.range k).map (fun i => (n >>> (8 * i)) % 256)

/-- MD5 padding: append 0x80, zero-fill to 56 mod 64, then the 64-bit
little-endian bit length. -/
def pad (msg : List Nat) : List Nat :=
  let len := msg.length
  let z := (119 - len % 64) % 64
  msg ++ [0x80] ++ List.replicate z 0 ++ leBytes 8 ((8 * len) % (m32 * m32))

/-- Internal digest state. -/
structure St where
  a : Nat
  b : Nat
  c : Nat
  d : Nat
deriving Repr

def initSt : St := ⟨0x67452301, 0xefcdab89, 0x98badcfe, 0x10325476⟩

/-- Decode a 64-byte block into sixteen little-endian 32-bit words. -/
def words (block : List Nat) : List Nat :=
  (List.range 16).map (fun i =>
    block.getD (4 * i) 0 + block.getD (4 * i + 1) 0 * 256 +
    block.getD (4 * i + 2) 0 * 65536 + block.getD (4 * i + 3) 0 * 16777216)

/-- One MD5 round. -/
def round (msgw : List Nat) (st : St) (i : Nat) : St :=
  let fg : Nat × Nat :=
    if i < 16 then ((st.b &&& st.c) ||| (notc st.b &&& st.d), i)
    else if i < 32 then ((st.d &&& st.b) ||| (notc st.d &&& st.c), (5 * i + 1) % 16)
    else if i < 48 then (st.b ^^^ st.c ^^^ st.d, (3 * i + 5) % 16)
    else (st.c ^^^ (st.b ||| notc st.d), (7 * i) % 16)
  let fv := (fg.1 + st.a + kTable.getD i 0 + msgw.getD fg.2 0) % m32
  ⟨st.d, (st.b + rotl32 fv (sTable.getD i 0)) % m32, st.b, st.c⟩

/-- Compress one 64-byte block into the running state. -/
def processBlock (st : St) (block : List Nat) : St :=
  let r := (List.range 64).foldl (round (words block)) st
  ⟨(st.a + r.a) % m32, (st.b + r.b) % m32, (st.c + r.c) % m32, (st.d + r.d) % m32⟩

/-- Full MD5 over a byte list, as the 16-byte digest. -/
def md5Bytes (msg : List Nat) : List Nat :=
  let padded := pad msg
  let nBlocks := padded.length / 64
  let st := (List.range nBlocks).foldl
    (fun s i => processBlock s ((padded.drop (64 * i)).take 64)) initSt
  leBytes 4 st.a ++ leBytes 4 st.b ++ leBytes 4 st.c ++ leBytes 4 st.d

def hexChar (n : Nat) : Char := if n < 10 then Char.ofNat (48 + n) else Char.ofNat (87 + n)

def byteHex (b : Nat) : List Char := [hexChar (b / 16), hexChar (b % 16)]

/-- UTF-8 encoding of one code point (Python `str.encode()` per character). -/
def utf8Bytes (c : Char) : List Nat :=
  let n := c.toNat
  if n < 0x80 then [n]
  else if n < 0x800 then [0xC0 + n / 0x40, 0x80 + n % 0x40]
  else if n < 0x10000 then
    [0xE0 + n / 0x1000, 0x80 + (n / 0x40) % 0x40, 0x80 + n % 0x40]
  else
    [0xF0 + n / 0x40000, 0x80 + (n / 0x1000) % 0x40, 0x80 + (n / 0x40) % 0x40, 0x80 + n % 0x40]

def strBytes (s : String) : List Nat := s.data.flatMap utf8Bytes

/-- `hashlib.md5(text.encode()).hexdigest()`. -/
def md5hex (s : String) : String := ⟨(md5Bytes (strBytes s)).flatMap byteHex⟩

end MD5

namespace ErrParse

/-- `ErrorSeverity` of error_parser.py. -/
inductive ErrorSeverity
  | low
  | medium
  | high
  | critical
deriving DecidableEq, Repr

/-- `ErrorCategory` of error_parser.py. The member named `SYNTAX` in the
source is rendered `syntaxCategory` here because its Python name is a
reserved word in Lean. -/
inductive ErrorCategory
  | syntaxCategory
  | dependency
  | configuration
  | runtime
  | network
  | permission
  | timeout
  | system
  | unknown
deriving DecidableEq, Repr

/-- Values of the free-form `context` dict built by `_extract_context`
(only booleans, ints and strings ever appear there). -/
inductive CtxVal
  | b (x : Bool)
  | n (x : Nat)
  | s (x : String)
deriving DecidableEq, Repr

/-- `ParsedError` dataclass. `line_number` is an `Int` because the code
produces it with Python `int(...)`. -/
structure ParsedError where
  raw_message : String
  category : ErrorCategory
  severity : ErrorSeverity
  file_path : Option String := none
  line_number : Option Int := none
  error_code : Option String := none
  context : List (String × CtxVal) := []
  suggested_fix : Option String := none
  retry_recommended : Bool := true
  estimated_fix_time : Option Nat := none
deriving DecidableEq, Repr

/-- `RetryStrategy` dataclass; float fields modelled as rationals. -/
structure RetryStrategy where
  max_attempts : Nat
  base_delay : ℚ
  max_delay : ℚ
  exponential_base : ℚ
  jitter : Bool
  backoff_multiplier : ℚ := 2
deriving DecidableEq, Repr

/-- Python exceptions the embedded code can raise. -/
inductive PyExc
  | valueError
  | typeError
  | nameError
deriving DecidableEq, Repr

/-- Decidable equality for `Except` values (not provided by core). -/
instance exceptDecEq {e a : Type} [DecidableEq e] [DecidableEq a] :
    DecidableEq (Except e a) := fun x y =>
  match x, y with
  | .ok u, .ok v =>
    if h : u = v then .isTrue (by rw [h])
    else .isFalse (by intro hc; injection hc; contradiction)
  | .error u, .error v =>
    if h : u = v then .isTrue (by rw [h])
    else .isFalse (by intro hc; injection hc; contradiction)
  | .ok _, .error _ => .isFalse (by intro hc; exact Except.noConfusion hc)
  | .error _, .ok _ => .isFalse (by intro hc; exact Except.noConfusion hc)

/-! ### A small regex interpreter

The classifier regexes of `_initialize_patterns` use only literal text,
`.*` gaps (which do not cross a newline) and single-character classes, so
we interpret exactly that fragment.  Matching is by existence of a match
anywhere in the string (`re.search`); greedy versus lazy choices are
irrelevant to existence because the interpreter backtracks over every
split.  Character-by-character recursions take an explicit fuel argument,
always called with fuel larger than every possible number of steps (each
step consumes an atom or an input character), so the fuel never runs out;
fuel keeps all definitions structurally recursive and kernel-evaluable. -/

/-- One regex atom: a literal, a `.*` gap, or a one-character class. -/
inductive RAtom
  | lit (s : List Char)
  | gap
  | cls (cs : List Char)
deriving DecidableEq, Repr

/-- Does the atom sequence match some prefix of `s`?  `gap` may consume any
run of non-newline characters (Python `.` does not match a newline). -/
def matchSeq : Nat → List RAtom → List Char → Bool
  | 0, _, _ => false
  | _ + 1, [], _ => true
  | f + 1, .lit l :: r, s => l.isPrefixOf s && matchSeq f r (s.drop l.length)
  | _ + 1, .cls _ :: _, [] => false
  | f + 1, .cls cs :: r, c :: s => cs.contains c && matchSeq f r s
  | f + 1, .gap :: r, [] => matchSeq f r []
  | f + 1, .gap :: r, c :: s =>
      matchSeq f r (c :: s) || (decide (c ≠ '\n') && matchSeq f (.gap :: r) s)

/-- Enough fuel for `matchSeq`: each step consumes an atom or a character. -/
def seqFuel (r : List RAtom) (s : List Char) : Nat := r.length + s.length + 1

/-- `re.search` for one alternative: try every start position. -/
def searchSeq (r : List RAtom) : List Char → Bool
  | [] => matchSeq (seqFuel r []) r []
  | c :: t => matchSeq (seqFuel r (c :: t)) r (c :: t) || searchSeq r t

/-- `re.search` for an alternation of atom sequences. -/
def reSearch (alts : List (List RAtom)) (s : List Char) : Bool :=
  alts.any (fun r => searchSeq r s)

/-- ASCII digits, for `\d`. -/
def digitChars : List Char := ['0', '1', '2', '3', '4', '5', '6', '7', '8', '9']

/-- One classifier rule of `_initialize_patterns`: a pattern plus the
(severity, retry, fix_time) triple it yields. -/
structure PatInfo where
  pattern : List (List RAtom)
  severity : ErrorSeverity
  retry : Bool
  fix_time : Nat
deriving Repr

/-- Shorthand for a lowercase literal alternative. -/
def la (s : String) : List RAtom := [.lit s.data]

/-- Shorthand for `A.*B`. -/
def lgl (a b : String) : List RAtom := [.lit a.data, .gap, .lit b.data]

/-- The classification table of `_initialize_patterns`, in source dict
order (Python dicts iterate in insertion order).  All literals are written
lowercase; `_categorize_error` lowercases the message, which models the
`re.IGNORECASE` flag of the source. -/
def patternsTable : List (ErrorCategory × List PatInfo) :=
  [(.syntaxCategory,
     [⟨[la "syntaxerror", la "syntax error", la "invalid syntax"], .high, false, 300⟩,
      ⟨[la "indentationerror", la "unexpected indent"], .medium, false, 180⟩,
      ⟨[la "typeerror", la "type error"], .high, false, 240⟩]),
   (.dependency,
     [⟨[la "modulenotfounderror", la "importerror", la "no module named"], .medium, false, 120⟩,
      ⟨[lgl "pip install" "failed", lgl "dependency" "not found"], .medium, true, 180⟩,
      ⟨[lgl "cmake" "not found", lgl "make" "not found", lgl "gcc" "not found"], .high, false, 600⟩]),
   (.configuration,
     [⟨[lgl "config" "error", lgl "configuration" "invalid"], .medium, false, 240⟩,
      ⟨[[.lit "environment".data, .gap, .lit "variable".data, .gap, .lit "not set".data],
        lgl "env" "missing"], .medium, false, 180⟩]),
   (.network,
     [⟨[lgl "connection" "refused", lgl "network" "unreachable", la "timeout"], .medium, true, 60⟩,
      ⟨[[.lit "http".data, .gap, .cls ['4', '5'], .cls digitChars, .cls digitChars],
        lgl "request" "failed"], .medium, true, 90⟩]),
   (.permission,
     [⟨[lgl "permission" "denied", lgl "access" "denied", la "unauthorized"], .high, false, 300⟩,
      ⟨[lgl "read" "permission", lgl "write" "permission"], .medium, false, 180⟩]),
   (.timeout,
     [⟨[la "timeout", la "timed out", lgl "time" "out"], .medium, true, 60⟩]),
   (.runtime,
     [⟨[la "runtimeerror", lgl "runtime" "error", lgl "execution" "failed"], .high, true, 180⟩,
      ⟨[la "assertionerror", lgl "assert" "failed"], .high, false, 240⟩]),
   (.system,
     [⟨[la "outofmemoryerror", lgl "memory" "error", lgl "disk" "full"], .critical, false, 600⟩,
      ⟨[la "filenotfounderror", lgl "file" "not found"], .medium, false, 120⟩])]

/-- `ErrorClassifier._categorize_error`: first matching rule in
category-then-rule order wins; fallback is
(unknown, medium, retry=True, 180). -/
def _categorize_error (msg : String) : ErrorCategory × ErrorSeverity × Bool × Nat :=
  let low := msg.data.map Char.toLower
  match patternsTable.findSome? (fun cp =>
    cp.2.findSome? (fun rule =>
      if reSearch rule.pattern low then
        some (cp.1, rule.severity, rule.retry, rule.fix_time)
      else none)) with
  | some r => r
  | none => (.unknown, .medium, true, 180)

/-! ### Location, error-code and context extraction -/

/-- Python `\s` (ASCII part). -/
def pySpace (c : Char) : Bool :=
  c = ' ' || c = '\t' || c = '\n' || c = '\r' || c = '\x0b' || c = '\x0c'

/-- Python `\w` (ASCII part). -/
def pyWord (c : Char) : Bool := c.isAlphanum || c = '_'

/-- Consume a literal. -/
def dropLit (l : List Char) (s : List Char) : Option (List Char) :=
  if l.isPrefixOf s then some (s.drop l.length) else none

/-- Consume a maximal nonempty run of characters satisfying `p`
(a greedy `[...]+`); fails when the run is empty. -/
def takeRun1 (p : Char → Bool) (s : List Char) : Option (List Char × List Char) :=
  let run := s.takeWhile p
  if run.isEmpty then none else some (run, s.drop run.length)

/-- Try a matcher at every start position, leftmost first (`re.search`). -/
def scanFirst (m : List Char → Option α) : List Char → Option α
  | [] => m []
  | c :: t =>
    match m (c :: t) with
    | some r => some r
    | none => scanFirst m t

/-- Substring test (Python `sub in text`). -/
def containsSub (pat : List Char) : List Char → Bool
  | [] => pat.isEmpty
  | c :: t => pat.isPrefixOf (c :: t) || containsSub pat t

/-- Python `int(text)`: strip whitespace, optional sign, decimal digits;
anything else raises ValueError.  (Underscore separators, accepted by
CPython between digits, never occur in the inputs considered here.) -/
def pyInt (s : String) : Except PyExc Int :=
  let t := ((s.data.dropWhile pySpace).reverse.dropWhile pySpace).reverse
  let sd : Int × List Char :=
    match t with
    | '+' :: r => (1, r)
    | '-' :: r => (-1, r)
    | r => (1, r)
  if sd.2.isEmpty || !(sd.2.all Char.isDigit) then .error .valueError
  else .ok (sd.1 * (sd.2.foldl (fun a c => a * 10 + (c.toNat - 48)) 0 : Nat))

/-- Match the pattern `File "([^"]+)", line (\d+)` at the head of `s`. -/
def matchLoc1At (s : List Char) : Option (String × String) := do
  let s ← dropLit "File \"".data s
  let (g1, s) ← takeRun1 (fun c => c ≠ '"') s
  let s ← dropLit "\", line ".data s
  let (g2, _) ← takeRun1 Char.isDigit s
  pure (⟨g1⟩, ⟨g2⟩)

/-- Match the pattern `([^\s:]+):(\d+):` at the head of `s`. -/
def matchLoc2At (s : List Char) : Option (String × String) := do
  let (g1, s) ← takeRun1 (fun c => !pySpace c && c ≠ ':') s
  let s ← dropLit [':'] s
  let (g2, s) ← takeRun1 Char.isDigit s
  let _ ← dropLit [':'] s
  pure (⟨g1⟩, ⟨g2⟩)

/-- Match the pattern `at ([^\s:]+):(\d+)` at the head of `s`. -/
def matchLoc3At (s : List Char) : Option (String × String) := do
  let s ← dropLit "at ".data s
  let (g1, s) ← takeRun1 (fun c => !pySpace c && c ≠ ':') s
  let s ← dropLit [':'] s
  let (g2, _) ← takeRun1 Char.isDigit s
  pure (⟨g1⟩, ⟨g2⟩)

/-- Match the pattern `line (\d+) in ([^\s]+)` at the head of `s`. -/
def matchLoc4At (s : List Char) : Option (String × String) := do
  let s ← dropLit "line ".data s
  let (g1, s) ← takeRun1 Char.isDigit s
  let s ← dropLit " in ".data s
  let (g2, _) ← takeRun1 (fun c => !pySpace c) s
  pure (⟨g1⟩, ⟨g2⟩)

/-- The location regexes paired with their source pattern text; the text is
kept because `_extract_location` branches on the substring test
`"line" in pattern` (which is also true for the FIRST pattern, not only
the fourth — the source of the ValueError shown below). -/
def locPatterns : List (String × (List Char → Option (String × String))) :=
  [("File \\\"([^\\\"]+)\\\", line (\\d+)", scanFirst matchLoc1At),
   ("([^\\s:]+):(\\d+):", scanFirst matchLoc2At),
   ("at ([^\\s:]+):(\\d+)", scanFirst matchLoc3At),
   ("line (\\d+) in ([^\\s]+)", scanFirst matchLoc4At)]

/-- Loop body of `ErrorClassifier._extract_location`: for the first
matching pattern, when the pattern text contains "line" the code returns
`(groups[1], int(groups[0]))`, otherwise `(groups[0], int(groups[1]))`.
`int` on a non-numeric captured file path raises ValueError. -/
def extractLocGo (msg : List Char) :
    List (String × (List Char → Option (String × String))) →
    Except PyExc (Option String × Option Int)
  | [] => .ok (none, none)
  | (ptext, matcher) :: rest =>
    match matcher msg with
    | some (g1, g2) =>
      if containsSub "line".data ptext.data then
        match pyInt g1 with
        | .ok n => .ok (some g2, some n)
        | .error e => .error e
      else
        match pyInt g2 with
        | .ok n => .ok (some g1, some n)
        | .error e => .error e
    | none => extractLocGo msg rest

/-- `ErrorClassifier._extract_location`. -/
def _extract_location (msg : String) : Except PyExc (Option String × Option Int) :=
  extractLocGo msg.data locPatterns

/-- Match `[Ee]rror\s+([A-Z]\d{3,4})` at the head of `s`; the group is the
letter plus three or four digits (greedy). -/
def matchCode1At (s : List Char) : Option String := do
  let s ←
    match s with
    | 'E' :: t => some t
    | 'e' :: t => some t
    | _ => none
  let s ← dropLit "rror".data s
  let (_, s) ← takeRun1 pySpace s
  let (u, s) ←
    match s with
    | c :: t => if 'A' ≤ c && c ≤ 'Z' then some (c, t) else none
    | [] => none
  let ds := s.takeWhile Char.isDigit
  if ds.length < 3 then none
  else pure ⟨u :: ds.take 4⟩

/-- Match `[Ee]rrcode:\s*(\d+)` at the head of `s`. -/
def matchCode2At (s : List Char) : Option String := do
  let s ←
    match s with
    | 'E' :: t => some t
    | 'e' :: t => some t
    | _ => none
  let s ← dropLit "rrcode:".data s
  let s := s.dropWhile pySpace
  let (g, _) ← takeRun1 Char.isDigit s
  pure ⟨g⟩

/-- Match `exit\s+code:\s*(\d+)` at the head of `s`. -/
def matchCode3At (s : List Char) : Option String := do
  let s ← dropLit "exit".data s
  let (_, s) ← takeRun1 pySpace s
  let s ← dropLit "code:".data s
  let s := s.dropWhile pySpace
  let (g, _) ← takeRun1 Char.isDigit s
  pure ⟨g⟩

/-- Match `status:\s*(\d+)` at the head of `s`. -/
def matchCode4At (s : List Char) : Option String := do
  let s ← dropLit "status:".data s
  let s := s.dropWhile pySpace
  let (g, _) ← takeRun1 Char.isDigit s
  pure ⟨g⟩

/-- `ErrorClassifier._extract_error_code`: first matching pattern wins. -/
def _extract_error_code (msg : String) : Option String :=
  [scanFirst matchCode1At, scanFirst matchCode2At,
   scanFirst matchCode3At, scanFirst matchCode4At].findSome?
    (fun m => m msg.data)

/-- Match `command ['"]([^'"]+)['"]`-style patterns (the prefix word is a
parameter; quotes may mix, as in the source character classes). -/
def matchQuotedAfter (pre : List Char) (s : List Char) : Option String := do
  let s ← dropLit pre s
  let s ←
    match s with
    | c :: t => if c = '"' || c = Char.ofNat 39 then some t else none
    | [] => none
  let (g, s) ← takeRun1 (fun c => c ≠ '"' && c ≠ Char.ofNat 39) s
  match s with
  | c :: _ => if c = '"' || c = Char.ofNat 39 then pure ⟨g⟩ else none
  | [] => none

/-- Python `str.strip` (whitespace both ends). -/
def pyStrip (s : List Char) : List Char :=
  ((s.dropWhile pySpace).reverse.dropWhile pySpace).reverse

/-- Split on a single character (Python `str.split('\n')`). -/
def splitOnChar (sep : Char) : List Char → List (List Char)
  | [] => [[]]
  | c :: t =>
    let r := splitOnChar sep t
    if c = sep then [] :: r
    else
      match r with
      | h :: rs => (c :: h) :: rs
      | [] => [[c]]

/-- `ErrorClassifier._extract_context`. -/
def _extract_context (msg : String) : List (String × CtxVal) :=
  let base :=
    if containsSub "Traceback".data msg.data then
      let depth := ((splitOnChar '\n' msg.data).filter
        (fun l => "File".data.isPrefixOf (pyStrip l))).length
      [("has_stack_trace", CtxVal.b true), ("stack_depth", CtxVal.n depth)]
    else []
  let cmd :=
    match scanFirst (matchQuotedAfter "command ".data) msg.data with
    | some v => [("command", CtxVal.s v)]
    | none => []
  let dir :=
    match scanFirst (matchQuotedAfter "directory ".data) msg.data with
    | some v => [("directory", CtxVal.s v)]
    | none => []
  base ++ cmd ++ dir

/-- `ErrorClassifier._generate_fix_suggestion`. -/
def _generate_fix_suggestion (cat : ErrorCategory) : Option String :=
  match cat with
  | .syntaxCategory => some "Check for syntax errors, typos, or incorrect language constructs"
  | .dependency => some "Install missing dependencies or update package versions"
  | .configuration => some "Review and fix configuration files or environment variables"
  | .network => some "Check network connectivity and firewall settings"
  | .permission => some "Verify file/directory permissions and access rights"
  | .timeout => some "Increase timeout values or optimize performance"
  | .runtime => some "Debug runtime logic and check program flow"
  | .system => some "Check system resources and disk space"
  | .unknown => some "Review error logs and investigate root cause"

/-- `ErrorClassifier.classify_error`.  The source computes the location
first, so an exception from `_extract_location` propagates before any
other field is produced. -/
def classify_error (msg : String) : Except PyExc ParsedError := do
  let (fp, ln) ← _extract_location msg
  let ec := _extract_error_code msg
  let c := _categorize_error msg
  let fix := _generate_fix_suggestion c.1
  let ctx := _extract_context msg
  pure { raw_message := msg, category := c.1, severity := c.2.1,
         file_path := fp, line_number := ln, error_code := ec,
         context := ctx, suggested_fix := fix,
         retry_recommended := c.2.2.1, estimated_fix_time := some c.2.2.2 }

end ErrParse

namespace ErrParse

/-- The per-category strategy table built in `RetryManager.__init__`.
Every category has an entry, so the `.get(..., strategies[UNKNOWN])`
fallback of `get_retry_strategy` never fires. -/
def strategies : ErrorCategory → RetryStrategy
  | .syntaxCategory => ⟨1, 0, 0, 1, false, 2⟩
  | .dependency => ⟨3, 2, 30, 2, true, 2⟩
  | .configuration => ⟨2, 1, 10, 3 / 2, true, 2⟩
  | .network => ⟨5, 1, 60, 2, true, 2⟩
  | .permission => ⟨1, 0, 0, 1, false, 2⟩
  | .timeout => ⟨3, 5, 120, 5 / 2, true, 2⟩
  | .runtime => ⟨3, 2, 45, 2, true, 2⟩
  | .system => ⟨2, 5, 180, 2, true, 2⟩
  | .unknown => ⟨3, 1, 30, 2, true, 2⟩

/-- `RetryManager.get_retry_strategy`. -/
def get_retry_strategy (e : ParsedError) : RetryStrategy := strategies e.category

/-- `RetryManager.should_retry`. -/
def should_retry (e : ParsedError) (attempt : Nat) : Bool :=
  if !e.retry_recommended then false
  else attempt < (get_retry_strategy e).max_attempts

/-- `RetryManager.calculate_delay`, parameterised by `pyHash`, the salted
built-in string hash of the running Python process (CPython randomises it
per process unless PYTHONHASHSEED is fixed); `pyHash` may be any function,
one per process run.  Python `%` on a possibly negative hash is `Int.emod`
(always non-negative for a positive modulus). -/
def calculate_delay (pyHash : String → Int) (e : ParsedError) (attempt : Nat) : ℚ :=
  let s := get_retry_strategy e
  let delay0 := s.base_delay * s.exponential_base ^ attempt
  let delay1 := min delay0 s.max_delay
  let delay2 :=
    if s.jitter then
      let jitter_range := delay1 * (1 / 4)
      delay1 + (((pyHash (e.raw_message ++ toString attempt)).emod 1000 : ℚ) / 1000)
        * jitter_range - jitter_range / 2
    else delay1
  max 0 delay2

/-- Spec-side value for comparison: the capped exponential backoff
`min(base_delay * exponential_base ^ attempt, max_delay)` named in the
specification, before jitter. -/
def specCappedDelay (e : ParsedError) (attempt : Nat) : ℚ :=
  let s := get_retry_strategy e
  min (s.base_delay * s.exponential_base ^ attempt) s.max_delay

/-- `AdvancedErrorParser.calculate_retry_delay`: 0 for an empty batch,
otherwise the running maximum (seeded with 0) of the per-error delays. -/
def calculate_retry_delay (pyHash : String → Int) (errors : List ParsedError)
    (attempt : Nat) : ℚ :=
  if errors.isEmpty then 0
  else errors.foldl (fun m e => max m (calculate_delay pyHash e attempt)) 0

/-- `AdvancedErrorParser.should_retry_execution`. -/
def should_retry_execution (errors : List ParsedError) (attempt : Nat) : Bool :=
  if errors.isEmpty then false
  else errors.any (fun e => should_retry e attempt)

/-! ### The error-analysis cache (`ErrorCache`)

`cache_analysis` serialises `asdict(error)` with `json.dump`.
`dataclasses.asdict` leaves `Enum` members unconverted, and `json.dump`
raises TypeError on an `Enum`, which `cache_analysis` catches and merely
logs — after `open(path, "w")` has already truncated the file and the
encoder has streamed the dict prefix up to the `category` key, leaving an
unparsable partial file behind.  We model a cache file as either a
complete record or that corrupt remnant. -/

/-- Scalar Python values appearing in `asdict(ParsedError)`. -/
inductive PyScalar
  | pstr (s : String)
  | pint (n : Int)
  | pbool (b : Bool)
  | pnone
  | penumCat (c : ErrorCategory)
  | penumSev (v : ErrorSeverity)
deriving DecidableEq, Repr

/-- A field value of `asdict(ParsedError)`: a scalar or the nested
`context` dict (whose values are scalars). -/
inductive PyField
  | scal (v : PyScalar)
  | dict1 (kvs : List (String × PyScalar))
deriving DecidableEq, Repr

def optStrPy : Option String → PyField
  | some s => .scal (.pstr s)
  | none => .scal .pnone

def optIntPy : Option Int → PyField
  | some n => .scal (.pint n)
  | none => .scal .pnone

def optNatPy : Option Nat → PyField
  | some n => .scal (.pint n)
  | none => .scal .pnone

def ctxScalar : CtxVal → PyScalar
  | .b x => .pbool x
  | .n x => .pint x
  | .s x => .pstr x

/-- `dataclasses.asdict` on a `ParsedError`: field order as declared; the
enum-valued fields stay enum members. -/
def asdictPE (e : ParsedError) : List (String × PyField) :=
  [("raw_message", .scal (.pstr e.raw_message)),
   ("category", .scal (.penumCat e.category)),
   ("severity", .scal (.penumSev e.severity)),
   ("file_path", optStrPy e.file_path),
   ("line_number", optIntPy e.line_number),
   ("error_code", optStrPy e.error_code),
   ("context", .dict1 (e.context.map (fun kv => (kv.1, ctxScalar kv.2)))),
   ("suggested_fix", optStrPy e.suggested_fix),
   ("retry_recommended", .scal (.pbool e.retry_recommended)),
   ("estimated_fix_time", optNatPy e.estimated_fix_time)]

/-- Is a scalar serialisable by `json.dump`?  Enum members are not. -/
def scalarSerializable : PyScalar → Bool
  | .penumCat _ => false
  | .penumSev _ => false
  | _ => true

def fieldSerializable : PyField → Bool
  | .scal v => scalarSerializable v
  | .dict1 kvs => kvs.all (fun kv => scalarSerializable kv.2)

/-- A cache file on disk: a fully written record (timestamp plus
`error_data`), or the truncated junk left when `json.dump` raised. -/
inductive CacheFile
  | valid (timestamp : Nat) (error_data : List (String × PyField))
  | corrupt
deriving DecidableEq, Repr

/-- The cache directory: file name (md5 hex of the message, `.json`) to
content. -/
abbrev CacheFS := List (String × CacheFile)

/-- `ErrorCache._get_error_hash` plus `_get_cache_path`. -/
def cachePath (msg : String) : String := MD5.md5hex msg ++ ".json"

def insertFS (fs : CacheFS) (p : String) (f : CacheFile) : CacheFS := (p, f) :: fs

def removeFS (fs : CacheFS) (p : String) : CacheFS := fs.filter (fun kv => kv.1 ≠ p)

def lookupFS (fs : CacheFS) (p : String) : Option CacheFile :=
  (fs.find? (fun kv => kv.1 = p)).map (·.2)

/-- `ErrorCache.cache_ttl` = 24 hours, in seconds. -/
def cacheTtl : Nat := 86400

/-- `ErrorCache.cache_analysis` at time `now` (seconds).  When every field
of `asdict(error)` is serialisable the record is written; otherwise
`json.dump` raises TypeError mid-stream, the handler swallows it, and the
truncated file remains. -/
def cache_analysis (fs : CacheFS) (now : Nat) (e : ParsedError) : CacheFS :=
  let p := cachePath e.raw_message
  if (asdictPE e).all (fun kv => fieldSerializable kv.2) then
    insertFS fs p (.valid now (asdictPE e))
  else
    insertFS fs p .corrupt

/-- `ErrorCategory(value)` on a stored string. -/
def categoryOfValue : String → Option ErrorCategory
  | "syntax" => some .syntaxCategory
  | "dependency" => some .dependency
  | "configuration" => some .configuration
  | "runtime" => some .runtime
  | "network" => some .network
  | "permission" => some .permission
  | "timeout" => some .timeout
  | "system" => some .system
  | "unknown" => some .unknown
  | _ => none

/-- `ErrorSeverity(value)` on a stored string. -/
def severityOfValue : String → Option ErrorSeverity
  | "low" => some .low
  | "medium" => some .medium
  | "high" => some .high
  | "critical" => some .critical
  | _ => none

def pyGet (kvs : List (String × PyField)) (k : String) : Option PyField :=
  (kvs.find? (fun kv => kv.1 = k)).map (·.2)

def asOptStr : Option PyField → Option String
  | some (.scal (.pstr s)) => some s
  | _ => none

def asOptInt : Option PyField → Option Int
  | some (.scal (.pint n)) => some n
  | _ => none

/-- Rebuild a `ParsedError` from a stored `error_data` dict, as the
reconstruction block of `get_cached_analysis` does; any failure there is
caught by the surrounding handler, which returns None. -/
def reconstructPE (d : List (String × PyField)) : Option ParsedError := do
  let raw ← asOptStr (pyGet d "raw_message")
  let catS ← asOptStr (pyGet d "category")
  let cat ← categoryOfValue catS
  let sevS ← asOptStr (pyGet d "severity")
  let sev ← severityOfValue sevS
  let ctx : List (String × CtxVal) :=
    match pyGet d "context" with
    | some (.dict1 kvs) => kvs.filterMap (fun kv =>
        match kv.2 with
        | .pbool x => some (kv.1, CtxVal.b x)
        | .pint n => some (kv.1, CtxVal.n n.toNat)
        | .pstr x => some (kv.1, CtxVal.s x)
        | _ => none)
    | _ => []
  let retry :=
    match pyGet d "retry_recommended" with
    | some (.scal (.pbool b)) => b
    | _ => true
  pure { raw_message := raw, category := cat, severity := sev,
         file_path := asOptStr (pyGet d "file_path"),
         line_number := asOptInt (pyGet d "line_number"),
         error_code := asOptStr (pyGet d "error_code"),
         context := ctx,
         suggested_fix := asOptStr (pyGet d "suggested_fix"),
         retry_recommended := retry,
         estimated_fix_time := (asOptInt (pyGet d "estimated_fix_time")).map Int.toNat }

/-- `ErrorCache.get_cached_analysis` at time `now`: absent file → None;
unparsable file → the exception handler returns None; expired file →
deleted, None; otherwise the reconstructed record. -/
def get_cached_analysis (fs : CacheFS) (now : Nat) (msg : String) :
    CacheFS × Option ParsedError :=
  let p := cachePath msg
  match lookupFS fs p with
  | none => (fs, none)
  | some .corrupt => (fs, none)
  | some (.valid t d) =>
    if now > t + cacheTtl then (removeFS fs p, none)
    else (fs, reconstructPE d)

end ErrParse

namespace FbOpt

/-- `FeedbackType` of feedback_optimizer.py. -/
inductive FeedbackType
  | success
  | error
  | warning
  | suggestion
  | correction
  | optimization
deriving DecidableEq, Repr

/-- `FeedbackSource` of feedback_optimizer.py. -/
inductive FeedbackSource
  | ci_pipeline
  | code_review
  | user_feedback
  | automated_tests
  | linting
  | security_scan
deriving DecidableEq, Repr

/-- `FeedbackItem` dataclass; timestamps in seconds, floats as rationals. -/
structure FeedbackItem where
  id : String
  type : FeedbackType
  source : FeedbackSource
  message : String
  severity : ℚ
  timestamp : Nat
  context : List (String × String) := []
  tags : List String := []
  related_files : List String := []
  resolution_time : Option ℚ := none
  resolved : Bool := false
  actionable : Bool := true
deriving DecidableEq, Repr

/-- `FeedbackPattern` dataclass. -/
structure FeedbackPattern where
  pattern_id : String
  frequency : Nat
  first_seen : Nat
  last_seen : Nat
  avg_resolution_time : Option ℚ := none
  success_rate : ℚ := 0
  auto_resolvable : Bool := false
  suggested_action : Option String := none
  related_patterns : List String := []
deriving DecidableEq, Repr

/-- `OptimizationRecommendation` dataclass. -/
structure OptimizationRecommendation where
  id : String
  title : String
  description : String
  priority : ℚ
  estimated_impact : ℚ
  implementation_effort : ℚ
  category : String
  action_items : List String
  expected_benefits : List String
  success_metrics : List String
deriving DecidableEq, Repr

/-! ### The feedback store and the duplicated keyword argument

`FeedbackDatabase.get_feedback` builds its `FeedbackItem` with the keyword
argument `resolution_time=row["resolution_time"]` written twice (source
lines 222-223).  A repeated keyword argument is a Python SyntaxError
raised when the module is compiled, so importing feedback_optimizer.py
fails and none of its definitions can ever execute. -/

/-- The keyword-argument names of the `FeedbackItem(...)` call inside
`FeedbackDatabase.get_feedback`, in source order. -/
def get_feedback_kwarg_names : List String :=
  ["id", "type", "source", "message", "severity", "timestamp", "context",
   "tags", "related_files", "resolution_time", "resolution_time",
   "resolved", "actionable"]

/-- CPython compiles a module before executing it; a call expression with
a repeated keyword argument is rejected during compilation, so the module
loads only if every call's keyword names are pairwise distinct.  (The one
offending call is the `get_feedback` one above.) -/
def feedback_optimizer_module_loads : Bool :=
  decide get_feedback_kwarg_names.Nodup

/-- Retrieval of stored feedback requires the module to be importable:
`get_feedback` (hence `identify_patterns`, `analyze_and_optimize` and
`get_optimization_report`) returns rows only if the module loaded. -/
def run_get_feedback (stored : List FeedbackItem) : Option (List FeedbackItem) :=
  if feedback_optimizer_module_loads then some stored else none

/-- `FeedbackDatabase.store_feedback`: INSERT OR REPLACE keyed on id. -/
def store_feedback (db : List FeedbackItem) (f : FeedbackItem) : List FeedbackItem :=
  f :: db.filter (fun g => g.id ≠ f.id)

/-- `FeedbackLoopOptimizer.mark_resolved`: the body of the source function
is a bare `pass` — it performs no update at all. -/
def mark_resolved (db : List FeedbackItem) (feedback_id : String)
    (resolution_time : Option ℚ) : List FeedbackItem :=
  let _ := feedback_id
  let _ := resolution_time
  db

/-! ### Pattern-key normalisation (`FeedbackAnalyzer._generate_pattern_key`)

The five `re.sub` substitutions are interpreted directly.  As in the
ErrParse namespace, character recursions carry a fuel argument that is
always ample (each step consumes at least one input character). -/

/-- A character allowed inside a `/`-segment: `[^/\s]`. -/
def segChar (c : Char) : Bool := c ≠ '/' && !ErrParse.pySpace c

/-- `re.sub(r"/[^/\s]+", "__FILE__", s)`: each slash followed by a
nonempty run of non-slash non-space characters becomes the placeholder. -/
def subFileF : Nat → List Char → List Char
  | 0, s => s
  | _ + 1, [] => []
  | f + 1, c :: rest =>
    if c = '/' then
      let run := rest.takeWhile segChar
      if run.isEmpty then c :: subFileF f rest
      else "__FILE__".data ++ subFileF f (rest.drop run.length)
    else c :: subFileF f rest

def subFile (s : List Char) : List Char := subFileF (s.length + 1) s

/-- `re.sub(r"\b\d+\b", "__NUM__", s)`: a maximal digit run whose
neighbours are non-word characters (or the string ends) is replaced; a
run followed by a word character has no trailing boundary anywhere inside
it and is left alone.  `prevW` records whether the previous character was
a word character. -/
def subNumF : Nat → Bool → List Char → List Char
  | 0, _, s => s
  | _ + 1, _, [] => []
  | f + 1, prevW, c :: rest =>
    if c.isDigit && !prevW then
      let run := c :: rest.takeWhile Char.isDigit
      let rest2 := rest.drop (run.length - 1)
      match rest2 with
      | [] => "__NUM__".data
      | d :: _ =>
        if ErrParse.pyWord d then run ++ subNumF f true rest2
        else "__NUM__".data ++ subNumF f true rest2
    else c :: subNumF f (ErrParse.pyWord c) rest

def subNum (s : List Char) : List Char := subNumF (s.length + 1) false s

/-- `re.sub(r"<q>[^<q>]*<q>", "__STRING__", s)` for a quote character:
an opening quote with a closing quote later becomes the placeholder
(shortest span, since the inner class excludes the quote). -/
def subQuoteF (q : Char) : Nat → List Char → List Char
  | 0, s => s
  | _ + 1, [] => []
  | f + 1, c :: rest =>
    if c = q then
      let run := rest.takeWhile (fun d => d ≠ q)
      match rest.drop run.length with
      | _ :: rest2 => "__STRING__".data ++ subQuoteF q f rest2
      | [] => c :: subQuoteF q f rest
    else c :: subQuoteF q f rest

def subQuote (q : Char) (s : List Char) : List Char := subQuoteF q (s.length + 1) s

/-- `re.sub(r"\s+", " ", s)`. -/
def collapseWsF : Nat → List Char → List Char
  | 0, s => s
  | _ + 1, [] => []
  | f + 1, c :: rest =>
    if ErrParse.pySpace c then ' ' :: collapseWsF f (rest.dropWhile ErrParse.pySpace)
    else c :: collapseWsF f rest

def collapseWs (s : List Char) : List Char := collapseWsF (s.length + 1) s

/-- The normalisation pipeline of `_generate_pattern_key`: lowercase,
path substitution, number substitution, double- then single-quoted
string substitution, whitespace collapse, strip. -/
def normalizeMsg (message : String) : String :=
  ⟨ErrParse.pyStrip (collapseWs (subQuote (Char.ofNat 39) (subQuote '"'
    (subNum (subFile (message.data.map Char.toLower))))))⟩

/-- `FeedbackAnalyzer._generate_pattern_key`: md5 of the normalised
message, truncated to 16 hex characters. -/
def _generate_pattern_key (message : String) : String :=
  (MD5.md5hex (normalizeMsg message)).take 16

/-! ### Recommendation generation -/

/-- Python `int()` truncation toward zero on a rational. -/
def pyTrunc (q : ℚ) : Int := if 0 ≤ q then ⌊q⌋ else ⌈q⌉

/-- Stable insertion into a descending-sorted list: an element goes in
front of the first strictly smaller key, after equal keys — exactly the
order `sorted(..., key=k, reverse=True)` (a stable sort) produces. -/
def insertDesc (key : α → ℚ) (x : α) : List α → List α
  | [] => [x]
  | y :: t => if key y ≤ key x then x :: y :: t else y :: insertDesc key x t

/-- Stable descending sort by a rational key (insertion sort; agrees with
Python `sorted(reverse=True)` because both are stable). -/
def sortDesc (key : α → ℚ) : List α → List α
  | [] => []
  | x :: t => insertDesc key x (sortDesc key t)

/-- The "pain score" `p.frequency * (1 - p.success_rate)` used as sort key
in `generate_optimization_recommendations`. -/
def painScore (p : FeedbackPattern) : ℚ := (p.frequency : ℚ) * (1 - p.success_rate)

/-- `FeedbackAnalyzer._determine_category`. -/
def _determine_category (p : FeedbackPattern) : String :=
  if p.frequency > 20 then "Critical Process"
  else if p.frequency > 10 then "High-Impact Issue"
  else if p.success_rate < 1 / 2 then "Resolution Failure"
  else "Recurring Issue"

/-- `FeedbackAnalyzer._generate_action_items`. -/
def _generate_action_items (p : FeedbackPattern) (category : String) : List String :=
  let _ := category
  let base :=
    if p.auto_resolvable then
      ["Implement automatic detection and resolution",
       "Add pre-commit hooks to prevent recurrence",
       "Update templates or boilerplate code"]
    else
      ["Investigate root cause of pattern",
       "Develop automated fix where possible",
       "Create documentation for manual resolution"]
  if p.success_rate < 7 / 10 then base ++ ["Improve current resolution process"]
  else base

/-- Python `str.lower`. -/
def pyLower (s : String) : String := ⟨s.data.map Char.toLower⟩

/-- `FeedbackAnalyzer._create_recommendation`.  Patterns with frequency
below 3 yield nothing.  A truthy `avg_resolution_time` (present and
non-zero) weights the priority by `min(avg/3600, 2)`; on that same branch
the expected-benefits f-string reads the undefined name `time_save`
(the assignment on the previous source line spells it `time_saved`), so
the call raises NameError before returning. -/
def _create_recommendation (p : FeedbackPattern) :
    Except ErrParse.PyExc (Option OptimizationRecommendation) :=
  if p.frequency < 3 then .ok none
  else
    let priority0 := ((p.frequency : ℚ) / 100) * (1 - p.success_rate)
    let priority1 :=
      match p.avg_resolution_time with
      | some t => if t ≠ 0 then priority0 * min (t / 3600) 2 else priority0
      | none => priority0
    let priority := min priority1 1
    let category := _determine_category p
    let action_items := _generate_action_items p category
    let benefits :=
      ["Reduce " ++ pyLower category ++ " issues by " ++
         toString (pyTrunc ((p.frequency : ℚ) * (8 / 10))) ++ " occurrences",
       "Improve success rate from " ++ toString (pyTrunc (p.success_rate * 100)) ++
         "% to ~95%",
       "Reduce manual intervention required"]
    match p.avg_resolution_time with
    | some t =>
      if t ≠ 0 then .error .nameError
      else .ok (some (mkRec p priority category action_items benefits))
    | none => .ok (some (mkRec p priority category action_items benefits))
where
  mkRec (p : FeedbackPattern) (priority : ℚ) (category : String)
      (action_items benefits : List String) : OptimizationRecommendation :=
    { id := "opt_" ++ p.pattern_id,
      title := "Optimize " ++ category ++ " Pattern: " ++
        (p.suggested_action.getD "Recurring Issue"),
      description := "Address recurring " ++ pyLower category ++
        " pattern occurring " ++ toString p.frequency ++ " times with " ++
        toString (pyTrunc (p.success_rate * 100)) ++ "% success rate",
      priority := priority,
      estimated_impact := min ((p.frequency : ℚ) / 50) 1,
      implementation_effort := if p.auto_resolvable then 3 / 10 else 7 / 10,
      category := category,
      action_items := action_items,
      expected_benefits := benefits,
      success_metrics :=
        ["Reduction in pattern frequency", "Improved success rate",
         "Reduced resolution time", "Fewer manual interventions"] }

/-- `FeedbackAnalyzer.generate_optimization_recommendations`: sort by pain
score descending, keep the top 10, build recommendations (skipping the
low-frequency ones), re-sort by priority descending.  An exception from
`_create_recommendation` propagates. -/
def generate_optimization_recommendations (patterns : List FeedbackPattern) :
    Except ErrParse.PyExc (List OptimizationRecommendation) := do
  let sorted := sortDesc painScore patterns
  let recs ← (sorted.take 10).foldlM (fun acc p => do
    match ← _create_recommendation p with
    | some r => pure (acc ++ [r])
    | none => pure acc) ([] : List OptimizationRecommendation)
  pure (sortDesc (fun r => r.priority) recs)

end FbOpt

/-! ### Fixtures and helper lemmas -/

/-- A retryable error of the fallback category (strategy: 3 attempts,
base 1s, max 30s, factor 2, jitter on). -/
def errUnknown : ErrParse.ParsedError :=
  { raw_message := "boom", category := .unknown, severity := .medium }

/-- Same raw message and category as `errUnknown`, other fields differ. -/
def errUnknownTwin : ErrParse.ParsedError :=
  { raw_message := "boom", category := .unknown, severity := .low,
    suggested_fix := some "investigate" }

/-- A non-retryable classified error (syntax category). -/
def errNoRetry : ErrParse.ParsedError :=
  { raw_message := "SyntaxError: bad", category := .syntaxCategory,
    severity := .high, retry_recommended := false }

/-- Scenario A input of the specification. -/
def c8input : String := "SyntaxError: invalid syntax (app.py, line 10)"

/-- What `classify_error` actually produces on `c8input`. -/
def c8result : ErrParse.ParsedError :=
  { raw_message := c8input, category := .syntaxCategory, severity := .high,
    file_path := none, line_number := none, error_code := none, context := [],
    suggested_fix := some "Check for syntax errors, typos, or incorrect language constructs",
    retry_recommended := false, estimated_fix_time := some 300 }

/-- A pattern with known average resolution time, frequency ≥ 3. -/
def c6pattern : FbOpt.FeedbackPattern :=
  { pattern_id := "p0", frequency := 5, first_seen := 0, last_seen := 0,
    avg_resolution_time := some 3600, success_rate := 0 }

/-- A pattern with frequency below 3. -/
def c6sparse : FbOpt.FeedbackPattern :=
  { pattern_id := "q0", frequency := 2, first_seen := 0, last_seen := 0 }

/-- An unresolved stored feedback item. -/
def c9item : FbOpt.FeedbackItem :=
  { id := "fb1", type := .error, source := .ci_pipeline,
    message := "test failure", severity := 1 / 2, timestamp := 100 }

/-- Every per-category strategy has non-negative base delay, max delay and
exponential base. -/
lemma strategies_nonneg (c : ErrParse.ErrorCategory) :
    0 ≤ (ErrParse.strategies c).base_delay ∧
    0 ≤ (ErrParse.strategies c).max_delay ∧
    0 ≤ (ErrParse.strategies c).exponential_base := by
  cases c <;> refine ⟨?_, ?_, ?_⟩ <;> norm_num [ErrParse.strategies]

/-- The capped pre-jitter delay is non-negative. -/
lemma specCappedDelay_nonneg (e : ErrParse.ParsedError) (n : Nat) :
    0 ≤ ErrParse.specCappedDelay e n := by
  obtain ⟨hb, hm, hx⟩ := strategies_nonneg e.category
  have h0 : 0 ≤ (ErrParse.strategies e.category).base_delay *
      (ErrParse.strategies e.category).exponential_base ^ n :=
    mul_nonneg hb (pow_nonneg hx n)
  exact le_min h0 hm

/-- Jitter perturbs the capped delay by at most one eighth of it, and the
result is non-negative (`max 0` never truncates in the jitter branch
because the perturbation never exceeds the capped value itself). -/
lemma calculate_delay_nonneg_and_bound (h : String → Int)
    (e : ErrParse.ParsedError) (n : Nat) :
    0 ≤ ErrParse.calculate_delay h e n ∧
    |ErrParse.calculate_delay h e n - ErrParse.specCappedDelay e n| ≤
      (1 / 8) * ErrParse.specCappedDelay e n := by
  have hd1 : 0 ≤ ErrParse.specCappedDelay e n := specCappedDelay_nonneg e n
  set d1 : ℚ := ErrParse.specCappedDelay e n with hd1def
  by_cases hj : (ErrParse.get_retry_strategy e).jitter
  · set m : Int := (h (e.raw_message ++ toString n)).emod 1000 with hm
    have hm0 : (0 : Int) ≤ m := Int.emod_nonneg _ (by norm_num)
    have hm1 : m < 1000 := Int.emod_lt_of_pos _ (by norm_num)
    have hq0 : (0 : ℚ) ≤ (m : ℚ) / 1000 := by positivity
    have hq1 : (m : ℚ) / 1000 ≤ 1 := by
      rw [div_le_one (by norm_num)]
      exact_mod_cast hm1.le
    have heq : ErrParse.calculate_delay h e n =
        max 0 (d1 + ((m : ℚ) / 1000) * (d1 * (1 / 4)) - d1 * (1 / 4) / 2) := by
      simp only [ErrParse.calculate_delay, ErrParse.specCappedDelay, hj, if_true, hd1def, hm]
    have hlow : d1 - (1 / 8) * d1 ≤
        d1 + ((m : ℚ) / 1000) * (d1 * (1 / 4)) - d1 * (1 / 4) / 2 := by
      have : 0 ≤ ((m : ℚ) / 1000) * (d1 * (1 / 4)) :=
        mul_nonneg hq0 (by linarith)
      linarith
    have hhigh : d1 + ((m : ℚ) / 1000) * (d1 * (1 / 4)) - d1 * (1 / 4) / 2 ≤
        d1 + (1 / 8) * d1 := by
      have : ((m : ℚ) / 1000) * (d1 * (1 / 4)) ≤ d1 * (1 / 4) := by
        have h4 : 0 ≤ d1 * (1 / 4) := by linarith
        calc ((m : ℚ) / 1000) * (d1 * (1 / 4)) ≤ 1 * (d1 * (1 / 4)) :=
              mul_le_mul_of_nonneg_right hq1 h4
          _ = d1 * (1 / 4) := one_mul _
      linarith
    have hmax : max 0 (d1 + ((m : ℚ) / 1000) * (d1 * (1 / 4)) - d1 * (1 / 4) / 2) =
        d1 + ((m : ℚ) / 1000) * (d1 * (1 / 4)) - d1 * (1 / 4) / 2 := by
      apply max_eq_right
      linarith
    rw [heq, hmax]
    constructor
    · linarith
    · rw [abs_le]
      constructor <;> linarith
  · have heq : ErrParse.calculate_delay h e n = max 0 d1 := by
      simp only [ErrParse.calculate_delay, ErrParse.specCappedDelay, hj, if_false, hd1def]
      simp [hj]
    rw [heq, max_eq_right hd1]
    refine ⟨hd1, ?_⟩
    rw [sub_self, abs_zero]
    positivity

/-- Folding `max` over a list starting from `a` yields an element of
`a :: l` that bounds every element of `a :: l`. -/
lemma foldl_max_spec (l : List ℚ) (a : ℚ) :
    l.foldl max a ∈ a :: l ∧ ∀ x ∈ a :: l, x ≤ l.foldl max a := by
  induction l generalizing a with
  | nil => simp
  | cons b t ih =>
    obtain ⟨hmem, hbound⟩ := ih (max a b)
    have hfold : (b :: t).foldl max a = t.foldl max (max a b) := rfl
    constructor
    · rw [hfold]
      rcases List.mem_cons.mp hmem with hcase | hcase
      · rcases max_choice a b with hab | hab
        · rw [hcase, hab]; exact List.mem_cons_self _ _
        · rw [hcase, hab]; exact List.mem_cons_of_mem _ (List.mem_cons_self _ _)
      · exact List.mem_cons_of_mem _ (List.mem_cons_of_mem _ hcase)
    · intro x hx
      rw [hfold]
      have hmaxle : max a b ≤ t.foldl max (max a b) :=
        hbound _ (List.mem_cons_self _ _)
      rcases List.mem_cons.mp hx with hcase | hcase
      · rw [hcase]
        exact le_trans (le_max_left a b) hmaxle
      · rcases List.mem_cons.mp hcase with hcase2 | hcase2
        · rw [hcase2]
          exact le_trans (le_max_right a b) hmaxle
        · exact hbound _ (List.mem_cons_of_mem _ hcase2)

/-! ### Claims -/

/-- C1: the claim says `classify_error` is total and never raises for any
input string.  It is false on the code: for the standard interpreter
trace line below, the first location pattern matches with groups
("app.py", "10"), and because the pattern text contains the substring
"line", `_extract_location` returns `groups[1], int(groups[0])` — calling
`int` on the captured file path, which raises ValueError before any
classification happens. -/
theorem c1_classify_error_raises_valueerror :
    ErrParse.classify_error "File \"app.py\", line 10" = .error .valueError ∧
    ErrParse._extract_location "File \"app.py\", line 10" = .error .valueError := by
  exact ⟨rfl, rfl⟩

/-- C2: the claimed cache round-trip never succeeds.  `cache_analysis`
serialises `asdict(error)`, whose `category` field is still an Enum
member; `json.dump` raises TypeError on it, the handler swallows the
exception, and only a truncated unparsable file remains, so a retrieval
at ANY later time (before or after the TTL) returns None. -/
theorem c2_cache_round_trip_returns_none (fs : ErrParse.CacheFS)
    (tWrite tRead : Nat) (e : ErrParse.ParsedError) :
    (ErrParse.get_cached_analysis (ErrParse.cache_analysis fs tWrite e)
      tRead e.raw_message).2 = none := by
  have hser : (ErrParse.asdictPE e).all (fun kv => ErrParse.fieldSerializable kv.2) = false := by
    simp [ErrParse.asdictPE, ErrParse.fieldSerializable, ErrParse.scalarSerializable]
  simp only [ErrParse.cache_analysis, hser, Bool.false_eq_true, if_false]
  simp [ErrParse.get_cached_analysis, ErrParse.lookupFS, ErrParse.insertFS, List.find?]

/-- C3: `should_retry` returns false whenever `retry_recommended` is
false, for every attempt count; when `retry_recommended` is true it
returns true exactly when the attempt count is below the strategy's
`max_attempts`. -/
theorem c3_should_retry_characterisation (e : ErrParse.ParsedError) (attempt : Nat) :
    (e.retry_recommended = false → ErrParse.should_retry e attempt = false) ∧
    (e.retry_recommended = true →
      (ErrParse.should_retry e attempt = true ↔
        attempt < (ErrParse.get_retry_strategy e).max_attempts)) := by
  constructor <;> intro h <;> simp [ErrParse.should_retry, h]

/-- Witness for C3 at concrete inputs: a non-retryable error is never
retried even at attempt 0; a retryable unknown-category error is retried
at attempt 0 (strategy allows 3 attempts). -/
theorem c3_should_retry_characterisation_witness :
    ErrParse.should_retry errNoRetry 0 = false ∧
    ErrParse.should_retry errUnknown 0 = true :=
  ⟨(c3_should_retry_characterisation errNoRetry 0).1 rfl,
   ((c3_should_retry_characterisation errUnknown 0).2 rfl).mpr (by decide)⟩

/-- C4 counterexample: the claim says the delay is deterministic in
(message content, attempt) across separate runs.  The jitter term uses
Python's built-in `hash()` on a string, which CPython salts with a
per-process random seed; two runs realise two different hash functions,
and the same error at the same attempt then receives different delays
(here 7/8 versus 4499/4000 seconds). -/
theorem c4_delay_differs_across_hash_seeds :
    ErrParse.calculate_delay (fun _ => 0) errUnknown 0 ≠
    ErrParse.calculate_delay (fun _ => 999) errUnknown 0 := by
  have h1 : ErrParse.calculate_delay (fun _ => 0) errUnknown 0 = 7 / 8 := by
    norm_num [ErrParse.calculate_delay, ErrParse.get_retry_strategy,
      ErrParse.strategies, errUnknown, min_def, max_def]
  have h2 : ErrParse.calculate_delay (fun _ => 999) errUnknown 0 = 4499 / 4000 := by
    norm_num [ErrParse.calculate_delay, ErrParse.get_retry_strategy,
      ErrParse.strategies, errUnknown, min_def, max_def]
  rw [h1, h2]
  norm_num

/-- C4 (amended): within one process run (a fixed string-hash function)
`calculate_delay` depends only on the error's raw message and category
plus the attempt number; it is never negative; and it deviates from the
capped exponential `min(base_delay * exponential_base ^ attempt,
max_delay)` by at most 12.5 percent of that capped value. -/
theorem c4_delay_bounded_and_deterministic_per_run (h : String → Int)
    (e e' : ErrParse.ParsedError) (attempt : Nat) :
    (e.raw_message = e'.raw_message → e.category = e'.category →
      ErrParse.calculate_delay h e attempt = ErrParse.calculate_delay h e' attempt) ∧
    0 ≤ ErrParse.calculate_delay h e attempt ∧
    |ErrParse.calculate_delay h e attempt - ErrParse.specCappedDelay e attempt| ≤
      (1 / 8) * ErrParse.specCappedDelay e attempt := by
  refine ⟨fun hmsg hcat => ?_, calculate_delay_nonneg_and_bound h e attempt⟩
  simp only [ErrParse.calculate_delay, ErrParse.get_retry_strategy, hmsg, hcat]

/-- Witness for C4 (amended) at concrete inputs: two errors sharing raw
message and category receive the same delay under a fixed hash function,
and the bound conjuncts hold for `errUnknown` at attempt 2. -/
theorem c4_delay_bounded_and_deterministic_per_run_witness :
    ErrParse.calculate_delay (fun _ => 7) errUnknown 2 =
      ErrParse.calculate_delay (fun _ => 7) errUnknownTwin 2 ∧
    0 ≤ ErrParse.calculate_delay (fun _ => 7) errUnknown 2 ∧
    |ErrParse.calculate_delay (fun _ => 7) errUnknown 2 -
        ErrParse.specCappedDelay errUnknown 2| ≤
      (1 / 8) * ErrParse.specCappedDelay errUnknown 2 :=
  ⟨(c4_delay_bounded_and_deterministic_per_run (fun _ => 7) errUnknown errUnknownTwin 2).1
      rfl rfl,
   (c4_delay_bounded_and_deterministic_per_run (fun _ => 7) errUnknown errUnknownTwin 2).2⟩

/-- C5: the `FeedbackItem(...)` call in `FeedbackDatabase.get_feedback`
repeats the keyword argument `resolution_time` (source lines 222-223), a
Python SyntaxError raised at module compile time, so feedback_optimizer.py
never loads and no stored feedback can ever be retrieved. -/
theorem c5_duplicate_kwarg_prevents_module_load :
    FbOpt.get_feedback_kwarg_names.count "resolution_time" = 2 ∧
    ¬ FbOpt.get_feedback_kwarg_names.Nodup ∧
    FbOpt.feedback_optimizer_module_loads = false ∧
    ∀ stored : List FbOpt.FeedbackItem, FbOpt.run_get_feedback stored = none := by
  refine ⟨by decide, by decide, by decide, fun stored => ?_⟩
  have hload : FbOpt.feedback_optimizer_module_loads = false := by decide
  simp [FbOpt.run_get_feedback, hload]

/-- C6: the claim says every top-10 pattern with frequency ≥ 3 yields a
recommendation with the weighted clamped priority.  The code disagrees
whenever `avg_resolution_time` is known (truthy): on that branch the
expected-benefits f-string reads the undefined name `time_save` (the
assignment spells it `time_saved`), raising NameError instead of
returning a recommendation.  The frequency < 3 skip does hold. -/
theorem c6_known_resolution_time_raises_nameerror :
    FbOpt.generate_optimization_recommendations [c6pattern] = .error .nameError ∧
    FbOpt._create_recommendation c6pattern = .error .nameError ∧
    FbOpt._create_recommendation c6sparse = .ok none := by
  exact ⟨rfl, rfl, rfl⟩

set_option maxRecDepth 100000 in
set_option maxHeartbeats 1000000 in
/-- C7 counterexample: the claim says two messages that differ only in an
embedded file path receive the same pattern id.  The substitution
`/[^/\s]+` replaces each slash-led segment separately, so paths with
different segment counts normalise differently and hash differently. -/
theorem c7_paths_with_different_depth_get_different_keys :
    FbOpt._generate_pattern_key "cannot open /src/app.py" ≠
    FbOpt._generate_pattern_key "cannot open /src/util/app.py" := by
  decide

set_option maxRecDepth 100000 in
set_option maxHeartbeats 1000000 in
/-- C7 (amended): messages with equal normalised forms share a pattern id;
in particular messages differing only in a standalone number, only in a
double-quoted literal, or only in an absolute path with the same number
of slash-led segments collide, while messages with different surrounding
words receive different ids (concrete 16-hex-digit keys compared). -/
theorem c7_pattern_key_characterisation :
    (∀ a b : String, FbOpt.normalizeMsg a = FbOpt.normalizeMsg b →
      FbOpt._generate_pattern_key a = FbOpt._generate_pattern_key b) ∧
    FbOpt._generate_pattern_key "error in line 10" =
      FbOpt._generate_pattern_key "error in line 99" ∧
    FbOpt._generate_pattern_key "failed on \"foo\" today" =
      FbOpt._generate_pattern_key "failed on \"bar\" today" ∧
    FbOpt._generate_pattern_key "cannot open /src/app.py" =
      FbOpt._generate_pattern_key "cannot open /etc/conf.txt" ∧
    FbOpt._generate_pattern_key "build failed" ≠
      FbOpt._generate_pattern_key "tests failed" := by
  refine ⟨fun a b hn => ?_, by decide, by decide, by decide, by decide⟩
  simp only [FbOpt._generate_pattern_key, hn]

/-- Witness for C7 (amended): the normalisation hypothesis discharged at
a concrete pair (whitespace collapse makes the normal forms equal). -/
theorem c7_pattern_key_characterisation_witness :
    FbOpt._generate_pattern_key "build  failed" =
      FbOpt._generate_pattern_key "build failed" :=
  c7_pattern_key_characterisation.1 "build  failed" "build failed" (by decide)

/-- C8 counterexample: the claim says classifying Scenario A's input
yields a file path containing "app.py" and line number 10.  None of the
four location regexes matches the parenthesised "(app.py, line 10)"
format, so the code extracts no location at all. -/
theorem c8_no_location_extracted :
    ¬ ∃ e : ErrParse.ParsedError,
        ErrParse.classify_error c8input = .ok e ∧
        (∃ fp, e.file_path = some fp) ∧ e.line_number = some 10 := by
  rintro ⟨e, he, ⟨fp, hfp⟩, -⟩
  have hok : ErrParse.classify_error c8input = .ok c8result := rfl
  rw [hok] at he
  cases he
  cases hfp

/-- C8 (amended): classifying Scenario A's input yields category=syntax,
severity=high, retry_recommended=false (with fix-time 300s and the syntax
fix suggestion), but both the file path and the line number are absent. -/
theorem c8_scenario_a_classification :
    ErrParse.classify_error c8input = .ok c8result := rfl

/-- C9: the claim says `mark_resolved` sets the resolved flag and records
the resolution time.  The source body of
`FeedbackLoopOptimizer.mark_resolved` is a bare `pass`: the store is
returned unchanged, and a stored unresolved item stays unresolved with no
resolution time after the call. -/
theorem c9_mark_resolved_is_a_noop :
    (∀ (db : List FbOpt.FeedbackItem) (fid : String) (t : Option ℚ),
      FbOpt.mark_resolved db fid t = db) ∧
    ((FbOpt.mark_resolved (FbOpt.store_feedback [] c9item) "fb1" (some 60)).find?
        (fun g => g.id == "fb1")).map (fun g => (g.resolved, g.resolution_time)) =
      some (false, none) := by
  refine ⟨fun db fid t => rfl, by decide⟩

/-- C10: `calculate_retry_delay` returns 0 for an empty batch, and for a
non-empty batch returns the maximum of the per-error delays: it is
attained by some error of the batch and bounds every error's delay. -/
theorem c10_batch_delay_is_maximum (h : String → Int)
    (errors : List ErrParse.ParsedError) (attempt : Nat) :
    (errors = [] → ErrParse.calculate_retry_delay h errors attempt = 0) ∧
    (errors ≠ [] →
      (∃ e ∈ errors, ErrParse.calculate_retry_delay h errors attempt =
        ErrParse.calculate_delay h e attempt) ∧
      ∀ e ∈ errors, ErrParse.calculate_delay h e attempt ≤
        ErrParse.calculate_retry_delay h errors attempt) := by
  constructor
  · intro hnil
    simp [ErrParse.calculate_retry_delay, hnil]
  · intro hne
    have hempty : errors.isEmpty = false := by
      cases errors with
      | nil => exact absurd rfl hne
      | cons a t => rfl
    have hfold : ErrParse.calculate_retry_delay h errors attempt =
        (errors.map (fun e => ErrParse.calculate_delay h e attempt)).foldl max 0 := by
      simp [ErrParse.calculate_retry_delay, hempty, List.foldl_map]
    obtain ⟨hmem, hbound⟩ :=
      foldl_max_spec (errors.map (fun e => ErrParse.calculate_delay h e attempt)) 0
    refine ⟨?_, ?_⟩
    · rcases List.mem_cons.mp hmem with hzero | hmem2
      · cases errors with
        | nil => exact absurd rfl hne
        | cons a t =>
          refine ⟨a, List.mem_cons_self a t, ?_⟩
          have hle : ErrParse.calculate_delay h a attempt ≤
              ((a :: t).map (fun e => ErrParse.calculate_delay h e attempt)).foldl max 0 :=
            hbound _ (List.mem_cons_of_mem _
              (List.mem_map_of_mem _ (List.mem_cons_self a t)))
          have hge : 0 ≤ ErrParse.calculate_delay h a attempt :=
            (calculate_delay_nonneg_and_bound h a attempt).1
          rw [hfold, hzero]
          rw [hzero] at hle
          exact (le_antisymm hle hge).symm
      · rcases List.mem_map.mp hmem2 with ⟨e, hemem, hedelay⟩
        refine ⟨e, hemem, ?_⟩
        rw [hfold]
        exact hedelay.symm
    · intro e hemem
      rw [hfold]
      exact hbound _ (List.mem_cons_of_mem _ (List.mem_map_of_mem _ hemem))

/-- Witness for C10 at concrete inputs: the empty batch gives 0, and a
singleton batch gives that error's own delay as the attained maximum. -/
theorem c10_batch_delay_is_maximum_witness :
    ErrParse.calculate_retry_delay (fun _ => 0) [] 0 = 0 ∧
    ((∃ e ∈ [errUnknown], ErrParse.calculate_retry_delay (fun _ => 0) [errUnknown] 0 =
        ErrParse.calculate_delay (fun _ => 0) e 0) ∧
      ∀ e ∈ [errUnknown], ErrParse.calculate_delay (fun _ => 0) e 0 ≤
        ErrParse.calculate_retry_delay (fun _ => 0) [errUnknown] 0) :=
  ⟨(c10_batch_delay_is_maximum (fun _ => 0) [] 0).1 rfl,
   (c10_batch_delay_is_maximum (fun _ => 0) [errUnknown] 0).2 (by simp)⟩

